import Mathlib

/-!
Verification development for the PILAR_CALCULADORA repository.

Shallow embedding of the core pipeline:
* `src/src/feature_engineering.py` — `create_engineered_features`
* `src/src/predictor.py` — `PillarPredictor.predict_single` / `predict_batch`
* `src/src/optimizer.py` — `PillarOptimizer.find_optimal_width`

Numbers are embedded exactly: Python floats are modelled as rationals
(`ℚ`) for all algebraic/branching values, and as reals (`ℝ`) for the two
features whose source computation uses `np.sqrt` / `np.arctan2`
(`mu_total`, `theta_moment`).  The trained LightGBM models are opaque in
the source (loaded from disk) and are modelled as abstract deterministic
row functions, exactly matching the spec's Model capability contract.

Two layers are used, both translated from the same source:
* a record layer (`PillarRecord`), the semantics of the pipeline on a
  fully-populated row — every raw column present, as produced by
  `pd.DataFrame([pillar_data])` on a complete dict;
* a frame layer (`Frame`), which models the pandas column/KeyError
  semantics (`pd.DataFrame(list_of_dicts)` takes the union of keys and
  fills missing cells with NaN; selecting an absent column raises) that
  the validation-behaviour claims depend on.
-/

/-- A raw pillar input row, one value per required raw column
(`REQUIRED_COLUMNS` in `config.py`).  `As` is optional: both
`predict_single` (`pillar_data.get('As', 0)`) and the optimizer treat it
as absent-able. -/
structure PillarRecord where
  fck : ℚ
  PeDireito : ℚ
  largura : ℚ
  Altura : ℚ
  Cobrimento : ℚ
  N_top : ℚ
  Mx_top : ℚ
  My_top : ℚ
  N_base : ℚ
  Mx_base : ℚ
  My_base : ℚ
  As : Option ℚ
deriving DecidableEq

/-- The output row of `create_engineered_features`: the original columns
plus every engineered column, in the source's order.  `mu_total` and
`theta_moment` are real-valued (`np.sqrt`, `np.arctan2`). -/
structure EngineeredFeatures extends PillarRecord where
  N_med : ℚ
  Mx_med : ℚ
  My_med : ℚ
  dN : ℚ
  dMx : ℚ
  dMy : ℚ
  Ac : ℚ
  nu : ℚ
  mu_x : ℚ
  mu_y : ℚ
  lambda_x : ℚ
  lambda_y : ℚ
  mu_total : ℝ
  e_x : ℚ
  e_y : ℚ
  ratio_M_x : ℚ
  ratio_M_y : ℚ
  index_2nd_order_x : ℚ
  index_2nd_order_y : ℚ
  aspect_ratio : ℚ
  theta_moment : ℝ

/-- Embedding of `create_engineered_features`
(`src/src/feature_engineering.py`, lines 14–125) on one fully-populated
row.  Each `let` mirrors one numpy statement; `np.where(c, a, b)` becomes
`if c then a else b` (numpy selects per element), `np.maximum`/`np.abs`
become `max`/`|·|`, and `np.arctan2 (y, x)` is the argument of the
complex number `x + i·y`. -/
noncomputable def create_engineered_features (r : PillarRecord) : EngineeredFeatures :=
  let largura := r.largura
  let altura := r.Altura
  let pe_direito := r.PeDireito
  let fck := r.fck
  let N_max := max |r.N_top| |r.N_base|
  let Mx_max := max |r.Mx_top| |r.Mx_base|
  let My_max := max |r.My_top| |r.My_base|
  let GAMMA_F : ℚ := 1.4
  let GAMMA_C : ℚ := 1.4
  let fcd := (fck / GAMMA_C) / 10
  let Ac := largura * altura
  let Nd := N_max * GAMMA_F
  let nu := Nd / (Ac * fcd)
  let Mxd := Mx_max * GAMMA_F * 100
  let Myd := My_max * GAMMA_F * 100
  let mu_x := Mxd / (Ac * altura * fcd)
  let mu_y := Myd / (Ac * largura * fcd)
  let lambda_x := 3.46 * pe_direito / largura
  let lambda_y := 3.46 * pe_direito / altura
  let mu_total := Real.sqrt ((mu_x : ℝ) ^ 2 + (mu_y : ℝ) ^ 2)
  let e_x := if N_max ≠ 0 then Mx_max / N_max else 0
  let e_y := if N_max ≠ 0 then My_max / N_max else 0
  let eps : ℚ := 1e-6
  let ratio_M_x := r.Mx_top / (r.Mx_base + eps)
  let ratio_M_y := r.My_top / (r.My_base + eps)
  let index_2nd_order_x := nu * lambda_x ^ 2
  let index_2nd_order_y := nu * lambda_y ^ 2
  let aspect_ratio := max (altura / largura) (largura / altura)
  let theta_moment := Complex.arg ⟨(mu_x : ℝ), (mu_y : ℝ)⟩
  { r with
    N_med := (r.N_top + r.N_base) / 2
    Mx_med := (r.Mx_top + r.Mx_base) / 2
    My_med := (r.My_top + r.My_base) / 2
    dN := r.N_base - r.N_top
    dMx := r.Mx_base - r.Mx_top
    dMy := r.My_base - r.My_top
    Ac := Ac
    nu := nu
    mu_x := mu_x
    mu_y := mu_y
    lambda_x := lambda_x
    lambda_y := lambda_y
    mu_total := mu_total
    e_x := e_x
    e_y := e_y
    ratio_M_x := ratio_M_x
    ratio_M_y := ratio_M_y
    index_2nd_order_x := index_2nd_order_x
    index_2nd_order_y := index_2nd_order_y
    aspect_ratio := aspect_ratio
    theta_moment := theta_moment }

/-- Scenario A of the spec (the record of `run_optimization.py`). -/
def scenarioA : PillarRecord :=
  { fck := 50, PeDireito := 235, largura := 30, Altura := 95, Cobrimento := 2.5
    N_top := 392, Mx_top := 129, My_top := -92
    N_base := 392, Mx_base := 205, My_base := 430, As := none }

/-- The feature matrix row `X = df_eng[FEATURE_COLUMNS]`, in the order of
`FEATURE_COLUMNS` in `config.py` (31 features; `Ac` and `As` excluded). -/
noncomputable def featureVector (e : EngineeredFeatures) : List ℝ :=
  [e.fck, e.PeDireito, e.largura, e.Altura, e.Cobrimento,
   e.N_top, e.Mx_top, e.My_top, e.N_base, e.Mx_base, e.My_base,
   e.N_med, e.Mx_med, e.My_med, e.dN, e.dMx, e.dMy,
   e.nu, e.mu_x, e.mu_y, e.mu_total, e.lambda_x, e.lambda_y,
   e.e_x, e.e_y,
   e.ratio_M_x, e.ratio_M_y, e.index_2nd_order_x, e.index_2nd_order_y,
   e.aspect_ratio, e.theta_moment]

/-- Abstract trained classifier (spec §4.2): deterministic per-row
`predict` (an integer label; the LightGBM binary classifier returns 0/1)
and `predict_proba` restricted to the probability of class 1, the column
the predictor reads (`[0][1]` single, `[:, 1]` batch). -/
structure Classifier where
  predict : List ℝ → ℤ
  predict_proba : List ℝ → ℚ

/-- Abstract trained regressor (spec §4.2): deterministic per-row
predicted steel ratio, an unconstrained real number modelled exactly. -/
structure Regressor where
  predict : List ℝ → ℚ

/-- The result dict built by `predict_single`.  Keys that the source adds
only on some paths (`message`, `error`, `error_pct`) are `Option`s. -/
structure SingleResult where
  status : String
  feasibility_prob : ℚ
  Ac : ℚ
  As_actual : ℚ
  rho_predicted : ℚ
  As_predicted : ℚ
  message : Option String
  error : Option ℚ
  error_pct : Option ℚ
deriving DecidableEq

/-- Embedding of `PillarPredictor.predict_single`
(`src/src/predictor.py`, lines 37–82) on a fully-populated record.
`_process_pillar_data` is `df.copy()` followed by
`create_engineered_features`, i.e. the pure transform. -/
noncomputable def predict_single (clf : Classifier) (reg : Regressor)
    (pillar_data : PillarRecord) : SingleResult :=
  let df_eng := create_engineered_features pillar_data
  let X := featureVector df_eng
  let Ac := df_eng.Ac
  let is_feasible := clf.predict X
  let prob_feasible := clf.predict_proba X
  let status := if is_feasible = 1 then "Feasible" else "Infeasible"
  let As_actual := pillar_data.As.getD 0
  if is_feasible = 0 then
    { status := status, feasibility_prob := prob_feasible, Ac := Ac
      As_actual := As_actual, rho_predicted := 0, As_predicted := 0
      message := some "Pillar geometry/loads failed feasibility check."
      error := none, error_pct := none }
  else
    let rho_pred := reg.predict X
    let As_pred := rho_pred * Ac
    { status := status, feasibility_prob := prob_feasible, Ac := Ac
      As_actual := As_actual, rho_predicted := rho_pred, As_predicted := As_pred
      message := none
      error := if As_actual > 0 then some (As_pred - As_actual) else none
      error_pct := if As_actual > 0 then some ((As_pred - As_actual) / As_actual * 100) else none }

/-- One row of the DataFrame returned by `predict_batch`. -/
structure BatchRow where
  is_feasible : ℤ
  prob_feasible : ℚ
  rho_predicted : ℚ
  As_predicted : ℚ
  As_actual : ℚ
  Ac : ℚ
deriving DecidableEq

/-- One row of `PillarPredictor.predict_batch`
(`src/src/predictor.py`, lines 84–116).  Every numpy operation there is
elementwise, so the batch semantics is this function mapped over the
rows: classify, regress unconditionally, then mask with
`np.where(feasibility == 1, ·, 0)`. -/
noncomputable def batchRow (clf : Classifier) (reg : Regressor)
    (r : PillarRecord) : BatchRow :=
  let df_eng := create_engineered_features r
  let X := featureVector df_eng
  let Ac := df_eng.Ac
  let feasibility := clf.predict X
  let probs := clf.predict_proba X
  let rho_preds := reg.predict X
  let As_preds := rho_preds * Ac
  { is_feasible := feasibility
    prob_feasible := probs
    rho_predicted := if feasibility = 1 then rho_preds else 0
    As_predicted := if feasibility = 1 then As_preds else 0
    As_actual := r.As.getD 0
    Ac := Ac }

/-- Embedding of `PillarPredictor.predict_batch` on a list of
fully-populated records (the frame-level validation behaviour — empty
input, missing columns — is modelled separately below on `Frame`). -/
noncomputable def predict_batch (clf : Classifier) (reg : Regressor)
    (pillars_data : List PillarRecord) : List BatchRow :=
  pillars_data.map (batchRow clf reg)

/-- A classifier that labels everything with a fixed label/probability;
used to instantiate the opaque model at concrete inputs. -/
def constClassifier (label : ℤ) (p : ℚ) : Classifier :=
  { predict := fun _ => label, predict_proba := fun _ => p }

/-- A regressor predicting a fixed steel ratio. -/
def constRegressor (rho : ℚ) : Regressor :=
  { predict := fun _ => rho }

/-- Python's `range(start, stop, step)` for a positive step: the integers
`start, start+step, …` strictly below `stop`; its length is
`max 0 (⌈(stop-start)/step⌉)`.  The optimizer only ever builds ascending
grids; for `step ≤ 0` (a `ValueError` at 0, descending otherwise in
Python) this model returns the empty grid and the theorems below carry a
`0 < step` hypothesis. -/
def pyRange (start stop step : ℤ) : List ℤ :=
  if 0 < step then
    (List.range ((stop - start + step - 1) / step).toNat).map
      (fun (i : ℕ) => start + (i : ℤ) * step)
  else []

/-- The `fixed_params` dict of `find_optimal_width` as used by the repo
(`run_optimization.py`): `fck`, `PeDireito`, `Cobrimento`, and `Altura`
which may be absent (`'Altura' not in candidate`). -/
structure FixedParams where
  fck : ℚ
  PeDireito : ℚ
  Cobrimento : ℚ
  Altura : Option ℚ

/-- The `loads` dict of `find_optimal_width`. -/
structure Loads where
  N_top : ℚ
  Mx_top : ℚ
  My_top : ℚ
  N_base : ℚ
  Mx_base : ℚ
  My_base : ℚ

/-- The `constraints` dict of `find_optimal_width`. -/
structure Constraints where
  min_largura : ℤ
  max_largura : ℤ
  step : ℤ

/-- The `costs` dict of `find_optimal_width`. -/
structure Costs where
  aco_kg : ℚ
  concreto_m3 : ℚ

/-- The width grid of `find_optimal_width`
(`src/src/optimizer.py`, lines 36–38):
`range(min_largura, max_largura + 1, step)`. -/
def optimizerLarguras (constraints : Constraints) : List ℤ :=
  pyRange constraints.min_largura (constraints.max_largura + 1) constraints.step

/-- One candidate record of the optimizer grid
(`src/src/optimizer.py`, lines 41–55): fixed params merged with loads,
`largura := b`, `Altura := b` when not fixed, dummy `As = 0`. -/
def mkCandidate (fixed_params : FixedParams) (loads : Loads) (b : ℤ) : PillarRecord :=
  { fck := fixed_params.fck
    PeDireito := fixed_params.PeDireito
    Cobrimento := fixed_params.Cobrimento
    largura := (b : ℚ)
    Altura := fixed_params.Altura.getD (b : ℚ)
    N_top := loads.N_top, Mx_top := loads.Mx_top, My_top := loads.My_top
    N_base := loads.N_base, Mx_base := loads.Mx_base, My_base := loads.My_base
    As := some 0 }

/-- One fully annotated row of the optimizer's result DataFrame.
`custo_total` lives in `WithTop ℚ`: the penalization writes the float
`inf`, every other total cost is a finite rational. -/
structure CandidateRow where
  is_feasible : ℤ
  prob_feasible : ℚ
  rho_predicted : ℚ
  As_predicted : ℚ
  As_actual : ℚ
  Ac : ℚ
  largura : ℚ
  Altura : ℚ
  custo_concreto : ℚ
  custo_aco : ℚ
  custo_total : WithTop ℚ
deriving DecidableEq

/-- The annotated candidate grid of `find_optimal_width` before the final
sort (`src/src/optimizer.py`, lines 40–100): batched prediction, the
concrete/steel cost columns, and the infeasible/low-confidence
penalization `custo_total := inf`.  All the numpy column operations are
elementwise, so the grid is this map over the widths. -/
noncomputable def candidateRows (clf : Classifier) (reg : Regressor)
    (fixed_params : FixedParams) (loads : Loads)
    (constraints : Constraints) (costs : Costs) : List CandidateRow :=
  (optimizerLarguras constraints).map (fun b =>
    let candidate := mkCandidate fixed_params loads b
    let pr := batchRow clf reg candidate
    let largura : ℚ := (b : ℚ)
    let altura : ℚ := candidate.Altura
    let pe_direito := fixed_params.PeDireito
    let vol_concreto := (largura / 100) * (altura / 100) * (pe_direito / 100)
    let cost_concreto := vol_concreto * costs.concreto_m3
    let peso_aco := pr.As_predicted * (pe_direito / 100) * 0.785
    let cost_aco := peso_aco * costs.aco_kg
    let mask_inviavel := pr.is_feasible = 0 ∨ pr.prob_feasible < 0.5
    { is_feasible := pr.is_feasible
      prob_feasible := pr.prob_feasible
      rho_predicted := pr.rho_predicted
      As_predicted := pr.As_predicted
      As_actual := pr.As_actual
      Ac := pr.Ac
      largura := largura
      Altura := altura
      custo_concreto := cost_concreto
      custo_aco := cost_aco
      custo_total := if mask_inviavel then ⊤ else ((cost_concreto + cost_aco : ℚ) : WithTop ℚ) })

/-- Embedding of `PillarOptimizer.find_optimal_width`
(`src/src/optimizer.py`, lines 18–105).  The final
`df.sort_values('custo_total')` sorts ascending by total cost; pandas'
default sort kind is quicksort, so only sortedness (not any particular
tie order) is guaranteed by the source — the model uses an insertion
sort, which realizes one admissible outcome. -/
noncomputable def find_optimal_width (clf : Classifier) (reg : Regressor)
    (fixed_params : FixedParams) (loads : Loads)
    (constraints : Constraints) (costs : Costs) : List CandidateRow :=
  (candidateRows clf reg fixed_params loads constraints costs).insertionSort
    (fun a b => a.custo_total ≤ b.custo_total)

/-!
Frame layer.  `pd.DataFrame(list_of_dicts)` builds a table whose columns
are the union of the dict keys in first-appearance order; a key missing
from a particular row leaves `NaN` in that cell.  A cell is `Option ℝ`
with `none` standing for the non-finite floats (`NaN`/`inf`): they are
never produced by a fully-populated record with non-degenerate geometry
and no claim depends on their payload, only on their propagation.
Selecting an absent column raises `KeyError` — the failure the spec's
taxonomy calls `ValidationError`.
-/

/-- A cell of a DataFrame: `none` models a non-finite float. -/
abbrev Cell := Option ℝ

/-- A column of cells. -/
abbrev Col := List Cell

/-- A raw input dict (one pillar), keys to numbers. -/
abbrev PillarDict := List (String × ℚ)

/-- A DataFrame: named columns in order. -/
structure Frame where
  cols : List (String × Col)

/-- The keys of a dict. -/
def dictKeys (r : PillarDict) : List String := r.map Prod.fst

/-- Union of the rows' keys in first-appearance order — the column set
`pd.DataFrame(list_of_dicts)` produces. -/
def colUnion (rows : List PillarDict) : List String :=
  rows.foldl (fun acc r => acc ++ (dictKeys r).filter (fun k => decide (k ∉ acc))) []

/-- Embedding of `pd.DataFrame(list_of_dicts)`: one column per key in the
union, `NaN` (`none`) where a row lacks the key. -/
def mkFrame (rows : List PillarDict) : Frame :=
  ⟨(colUnion rows).map (fun c => (c, rows.map (fun r => (r.lookup c).map (fun q => (q : ℝ)))))⟩

/-- Column selection `df[c]`: `KeyError` when absent. -/
def getCol (f : Frame) (c : String) : Except String Col :=
  match f.cols.lookup c with
  | some v => .ok v
  | none => .error ("KeyError: " ++ c)

/-- Column assignment `df[c] = v`: overwrite in place when the column
exists, append otherwise. -/
def setCol (f : Frame) (c : String) (v : Col) : Frame :=
  if (f.cols.lookup c).isSome then
    ⟨f.cols.map (fun p => if p.1 = c then (c, v) else p)⟩
  else ⟨f.cols ++ [(c, v)]⟩

/-- Elementwise unary op; `NaN` propagates. -/
def cmap (g : ℝ → ℝ) : Col → Col := List.map (Option.map g)

/-- Elementwise binary op; `NaN` propagates (numpy semantics). -/
def czip (g : ℝ → ℝ → ℝ) : Col → Col → Col :=
  List.zipWith (fun a b =>
    match a, b with
    | some x, some y => some (g x y)
    | _, _ => none)

/-- Elementwise division; a zero denominator yields a non-finite float
(`inf`/`NaN`), collapsed to `none`. -/
noncomputable def cdiv : Col → Col → Col :=
  List.zipWith (fun a b =>
    match a, b with
    | some x, some y => if y = 0 then none else some (x / y)
    | _, _ => none)

/-- Elementwise `np.where(den != 0, num/den, 0)` as used for the
eccentricities: numpy evaluates the quotient eagerly but the selected
value at a zero denominator is the literal 0.  A `NaN` denominator
compares `!= 0` as true, selecting the (then non-finite) quotient. -/
noncomputable def cwhereDiv (num den : Col) : Col :=
  List.zipWith (fun a b =>
    match b with
    | some nv => if nv ≠ 0 then a.map (fun x => x / nv) else some 0
    | none => none) num den

/-- Embedding of `create_engineered_features` at the frame level
(`src/src/feature_engineering.py`, lines 14–125): the ten raw-column
reads (each a potential `KeyError`), then the engineered columns written
in source order.  `df.copy()` is the identity on the immutable model. -/
noncomputable def create_engineered_features_df (df : Frame) : Except String Frame := do
  let largura ← getCol df "largura"
  let altura ← getCol df "Altura"
  let pe_direito ← getCol df "PeDireito"
  let fck ← getCol df "fck"
  let N_top ← getCol df "N_top"
  let N_base ← getCol df "N_base"
  let Mx_top ← getCol df "Mx_top"
  let Mx_base ← getCol df "Mx_base"
  let My_top ← getCol df "My_top"
  let My_base ← getCol df "My_base"
  let df := setCol df "N_med" (czip (fun a b => (a + b) / 2) N_top N_base)
  let df := setCol df "Mx_med" (czip (fun a b => (a + b) / 2) Mx_top Mx_base)
  let df := setCol df "My_med" (czip (fun a b => (a + b) / 2) My_top My_base)
  let df := setCol df "dN" (czip (fun a b => a - b) N_base N_top)
  let df := setCol df "dMx" (czip (fun a b => a - b) Mx_base Mx_top)
  let df := setCol df "dMy" (czip (fun a b => a - b) My_base My_top)
  let N_max := czip max (cmap (fun x => |x|) N_top) (cmap (fun x => |x|) N_base)
  let Mx_max := czip max (cmap (fun x => |x|) Mx_top) (cmap (fun x => |x|) Mx_base)
  let My_max := czip max (cmap (fun x => |x|) My_top) (cmap (fun x => |x|) My_base)
  let fcd := cmap (fun x => (x / 1.4) / 10) fck
  let Ac := czip (· * ·) largura altura
  let df := setCol df "Ac" Ac
  let Nd := cmap (fun x => x * 1.4) N_max
  let nuCol := cdiv Nd (czip (· * ·) Ac fcd)
  let df := setCol df "nu" nuCol
  let Mxd := cmap (fun x => x * 1.4 * 100) Mx_max
  let Myd := cmap (fun x => x * 1.4 * 100) My_max
  let muxCol := cdiv Mxd (czip (· * ·) (czip (· * ·) Ac altura) fcd)
  let df := setCol df "mu_x" muxCol
  let muyCol := cdiv Myd (czip (· * ·) (czip (· * ·) Ac largura) fcd)
  let df := setCol df "mu_y" muyCol
  let lamxCol := cdiv (cmap (fun x => 3.46 * x) pe_direito) largura
  let df := setCol df "lambda_x" lamxCol
  let lamyCol := cdiv (cmap (fun x => 3.46 * x) pe_direito) altura
  let df := setCol df "lambda_y" lamyCol
  let df := setCol df "mu_total"
    (cmap Real.sqrt (czip (fun a b => a ^ 2 + b ^ 2) muxCol muyCol))
  let df := setCol df "e_x" (cwhereDiv Mx_max N_max)
  let df := setCol df "e_y" (cwhereDiv My_max N_max)
  let df := setCol df "ratio_M_x" (cdiv Mx_top (cmap (fun x => x + 1e-6) Mx_base))
  let df := setCol df "ratio_M_y" (cdiv My_top (cmap (fun x => x + 1e-6) My_base))
  let df := setCol df "index_2nd_order_x" (czip (· * ·) nuCol (cmap (fun x => x ^ 2) lamxCol))
  let df := setCol df "index_2nd_order_y" (czip (· * ·) nuCol (cmap (fun x => x ^ 2) lamyCol))
  let df := setCol df "aspect_ratio" (czip max (cdiv altura largura) (cdiv largura altura))
  let df := setCol df "theta_moment" (czip (fun y x => Complex.arg ⟨x, y⟩) muyCol muxCol)
  return df

/-- The column names `create_engineered_features` writes, in write
order. -/
def engineeredColNames : List String :=
  ["N_med", "Mx_med", "My_med", "dN", "dMx", "dMy", "Ac", "nu", "mu_x", "mu_y",
   "lambda_x", "lambda_y", "mu_total", "e_x", "e_y", "ratio_M_x", "ratio_M_y",
   "index_2nd_order_x", "index_2nd_order_y", "aspect_ratio", "theta_moment"]

/-- `FEATURE_COLUMNS` from `config.py`. -/
def FEATURE_COLUMNS : List String :=
  ["fck", "PeDireito", "largura", "Altura", "Cobrimento",
   "N_top", "Mx_top", "My_top", "N_base", "Mx_base", "My_base",
   "N_med", "Mx_med", "My_med", "dN", "dMx", "dMy",
   "nu", "mu_x", "mu_y", "mu_total", "lambda_x", "lambda_y",
   "e_x", "e_y",
   "ratio_M_x", "ratio_M_y", "index_2nd_order_x", "index_2nd_order_y",
   "aspect_ratio", "theta_moment"]

/-- Multi-column selection `df[cs]`: `KeyError` if any is absent. -/
def selectCols (f : Frame) (cs : List String) : Except String Frame :=
  if cs.all (fun c => (f.cols.lookup c).isSome) then
    .ok ⟨cs.map (fun c => (c, ((f.cols.lookup c).getD [])))⟩
  else .error "KeyError: columns not in index"

/-- Row `i` of a frame as a feature vector (one cell per column). -/
def frameRow (f : Frame) (i : ℕ) : List Cell :=
  f.cols.map (fun p => (p.2.get? i).join)

/-- Whether an `Except` is a success. -/
def isOkE {ε α : Type _} : Except ε α → Bool
  | .ok _ => true
  | .error _ => false

/-- Embedding of `PillarPredictor.predict_batch` at the frame level
(`src/src/predictor.py`, lines 84–120): build the frame from the raw
dicts, engineer features, select `FEATURE_COLUMNS` and `Ac`, run both
models on every row, mask with `np.where(feasibility == 1, ·, 0)`, and
assemble the result frame.  The models are abstract per-row functions on
feature vectors (LightGBM accepts `NaN` cells, so a partially missing
column does not fail). -/
noncomputable def predict_batch_df
    (clfPredict : List Cell → ℤ) (clfProba : List Cell → ℚ)
    (regPredict : List Cell → ℚ) (pillars_data : List PillarDict) :
    Except String Frame := do
  let df := mkFrame pillars_data
  let df_eng ← create_engineered_features_df df
  let X ← selectCols df_eng FEATURE_COLUMNS
  let Ac ← getCol df_eng "Ac"
  let n := pillars_data.length
  let rows := (List.range n).map (frameRow X)
  let feasibility := rows.map clfPredict
  let probs := rows.map clfProba
  let rho_preds := rows.map regPredict
  let As_preds := List.zipWith (fun rho ac => Option.map (fun a => ((rho : ℚ) : ℝ) * a) ac) rho_preds Ac
  let final_As := List.zipWith (fun f a => if f = (1 : ℤ) then a else some 0) feasibility As_preds
  let final_rho := (List.zipWith (fun f rho => if f = (1 : ℤ) then some ((rho : ℚ) : ℝ) else some 0) feasibility rho_preds : Col)
  let As_actual :=
    match df.cols.lookup "As" with
    | some v => v
    | none => (List.range n).map (fun _ => some (0 : ℝ))
  return ⟨[("is_feasible", feasibility.map (fun z => some ((z : ℤ) : ℝ))),
           ("prob_feasible", probs.map (fun q => some ((q : ℚ) : ℝ))),
           ("rho_predicted", final_rho),
           ("As_predicted", final_As),
           ("As_actual", As_actual),
           ("Ac", Ac)]⟩

/-- The raw columns whose absence from the whole batch makes
`predict_batch` fail: the ten read by `create_engineered_features` plus
`Cobrimento`, read only at the `df_eng[FEATURE_COLUMNS]` selection. -/
def requiredBatchCols : List String :=
  ["largura", "Altura", "PeDireito", "fck", "N_top", "N_base",
   "Mx_top", "Mx_base", "My_top", "My_base", "Cobrimento"]

/-- A fully-populated raw input dict. -/
def dictFull : PillarDict :=
  [("fck", 14), ("PeDireito", 100), ("largura", 10), ("Altura", 10), ("Cobrimento", 2),
   ("N_top", 100), ("Mx_top", 1), ("My_top", 1), ("N_base", 100), ("Mx_base", 1),
   ("My_base", 1), ("As", 0)]

/-- The same dict with the required field `N_top` missing. -/
def dictMissingNtop : PillarDict :=
  [("fck", 14), ("PeDireito", 100), ("largura", 10), ("Altura", 10), ("Cobrimento", 2),
   ("Mx_top", 1), ("My_top", 1), ("N_base", 100), ("Mx_base", 1),
   ("My_base", 1), ("As", 0)]

/-- A fully-populated dict that additionally brings a column named `Ac`,
which `create_engineered_features` overwrites. -/
def dictWithAc : PillarDict := dictFull ++ [("Ac", 42)]

/-- The column a frame computation produced under a name, if it
succeeded. -/
def colOfResult (x : Except String Frame) (c : String) : Option Col :=
  match x with
  | .ok f => f.cols.lookup c
  | .error _ => none

/-- The engineered frame of the fully-populated one-row input; used to
instantiate frame-level theorems at a concrete point. -/
noncomputable def engFullFrame : Frame :=
  match create_engineered_features_df (mkFrame [dictFull]) with
  | .ok f => f
  | .error _ => ⟨[]⟩

/-- Concrete optimizer inputs used to instantiate the optimizer theorems
at explicit points. -/
def fpConc : FixedParams := { fck := 14, PeDireito := 100, Cobrimento := 2, Altura := none }

/-- Concrete loads for the same instantiations. -/
def ldConc : Loads :=
  { N_top := 100, Mx_top := 1, My_top := 1, N_base := 100, Mx_base := 1, My_base := 1 }

/-- A one-candidate constraint box. -/
def csConc : Constraints := { min_largura := 10, max_largura := 10, step := 5 }

/-- Unit prices for the same instantiations. -/
def costsConc : Costs := { aco_kg := 1, concreto_m3 := 1 }

/-- The single row `find_optimal_width` produces from `fpConc`, `ldConc`,
`csConc`, `costsConc` under an always-feasible classifier and the zero
regressor. -/
def rowConc : CandidateRow :=
  { is_feasible := 1, prob_feasible := 1, rho_predicted := 0, As_predicted := 0
    As_actual := 0, Ac := 100, largura := 10, Altura := 10
    custo_concreto := 1/100, custo_aco := 0, custo_total := ((1/100 + 0 : ℚ) : WithTop ℚ) }


/-!
Helper lemmas, shared across several claims.
-/

/-- The cross-section area column of the record-level transform. -/
lemma creEng_Ac (r : PillarRecord) :
    (create_engineered_features r).Ac = r.largura * r.Altura := rfl

/-- Raw fields survive the record-level transform. -/
lemma creEng_raw (r : PillarRecord) :
    (create_engineered_features r).toPillarRecord = r := rfl

/-- Unfolding equation for association-list lookup at a cons cell. -/
lemma lookup_cons_eqn {β : Type _} (k c : String) (b : β) (l : List (String × β)) :
    ((k, b) :: l).lookup c = if c = k then some b else l.lookup c := by
  by_cases h : c = k
  · simp [List.lookup, h]
  · simp [List.lookup, h, beq_eq_false_iff_ne.mpr h]

/-- A successful bind factors through a successful first step. -/
lemma isOkE_bind {ε α β : Type _} {x : Except ε α} {f : α → Except ε β}
    (h : isOkE (x >>= f) = true) : ∃ a, x = .ok a ∧ isOkE (f a) = true := by
  cases x with
  | ok a => exact ⟨a, rfl, by simpa [Bind.bind, Except.bind] using h⟩
  | error e => simp [Bind.bind, Except.bind, isOkE] at h

/-- A successful column read means the column is present. -/
lemma getCol_ok_isSome {f : Frame} {c : String} {v : Col}
    (h : getCol f c = .ok v) : (f.cols.lookup c).isSome := by
  unfold getCol at h
  cases hl : f.cols.lookup c with
  | some w => simp [hl]
  | none => simp [hl] at h

/-- Generic association-list fact: a key is among the keys iff its lookup
succeeds. -/
lemma lookup_isSome_iff {β : Type _} {l : List (String × β)} {c : String} :
    (l.lookup c).isSome ↔ c ∈ l.map Prod.fst := by
  induction l with
  | nil => simp [List.lookup]
  | cons p l ih =>
    obtain ⟨k, b⟩ := p
    rw [lookup_cons_eqn]
    by_cases hk : c = k
    · simp [hk]
    · simp [hk, ih]

/-- Membership in the first-appearance key union. -/
lemma mem_colUnion {rows : List PillarDict} {c : String} :
    c ∈ colUnion rows ↔ ∃ r ∈ rows, c ∈ dictKeys r := by
  have main : ∀ (rows : List PillarDict) (acc : List String),
      c ∈ rows.foldl (fun acc r => acc ++ (dictKeys r).filter (fun k => decide (k ∉ acc))) acc ↔
        c ∈ acc ∨ ∃ r ∈ rows, c ∈ dictKeys r := by
    intro rows
    induction rows with
    | nil => simp
    | cons r rows ih =>
      intro acc
      rw [List.foldl_cons, ih]
      simp only [List.mem_append, List.mem_filter, List.mem_cons, decide_eq_true_eq]
      constructor
      · rintro ((h | ⟨h, _⟩) | ⟨r', hr', hc⟩)
        · exact Or.inl h
        · exact Or.inr ⟨r, Or.inl rfl, h⟩
        · exact Or.inr ⟨r', Or.inr hr', hc⟩
      · rintro (h | ⟨r', rfl | hr', hc⟩)
        · exact Or.inl (Or.inl h)
        · by_cases hacc : c ∈ acc
          · exact Or.inl (Or.inl hacc)
          · exact Or.inl (Or.inr ⟨hc, hacc⟩)
        · exact Or.inr ⟨r', hr', hc⟩
  unfold colUnion
  rw [main]
  simp

/-- Lookup in the frame built by `mkFrame` succeeds exactly on the key
union. -/
lemma mkFrame_lookup_isSome {rows : List PillarDict} {c : String} :
    ((mkFrame rows).cols.lookup c).isSome ↔ c ∈ colUnion rows := by
  unfold mkFrame
  rw [lookup_isSome_iff]
  simp

/-- Overwriting one key of an association list leaves other lookups
unchanged. -/
lemma lookup_map_replace {c c' : String} {v : Col} (h : c ≠ c')
    (l : List (String × Col)) :
    (l.map (fun p => if p.1 = c' then (c', v) else p)).lookup c = l.lookup c := by
  induction l with
  | nil => rfl
  | cons p l ih =>
    obtain ⟨k, w⟩ := p
    by_cases hk : k = c'
    · simp only [List.map_cons, hk, if_pos]
      rw [lookup_cons_eqn, lookup_cons_eqn, if_neg h, if_neg h, ih]
    · rw [List.map_cons, if_neg (by simpa using hk), lookup_cons_eqn, lookup_cons_eqn]
      by_cases hck : c = k
      · simp [hck]
      · rw [if_neg hck, if_neg hck, ih]

/-- Appending a single differently-named column leaves a lookup
unchanged. -/
lemma lookup_append_single {c c' : String} {v : Col} (h : c ≠ c')
    (l : List (String × Col)) :
    (l ++ [(c', v)]).lookup c = l.lookup c := by
  induction l with
  | nil =>
    rw [List.nil_append, lookup_cons_eqn, if_neg h]
  | cons p l ih =>
    obtain ⟨k, w⟩ := p
    rw [List.cons_append, lookup_cons_eqn, lookup_cons_eqn]
    by_cases hck : c = k
    · simp [hck]
    · rw [if_neg hck, if_neg hck, ih]

/-- Setting a different column does not change a lookup. -/
lemma lookup_setCol_ne {f : Frame} {c c' : String} {v : Col} (h : c ≠ c') :
    (setCol f c' v).cols.lookup c = f.cols.lookup c := by
  unfold setCol
  split
  · exact lookup_map_replace h f.cols
  · exact lookup_append_single h f.cols

/-- Setting a column preserves presence of every other column. -/
lemma lookup_isSome_setCol_iff (f : Frame) (c c' : String) (v : Col) :
    (((setCol f c' v).cols.lookup c).isSome) ↔ ((f.cols.lookup c).isSome ∨ c = c') := by
  by_cases h : c = c'
  · subst h
    constructor
    · intro _
      exact Or.inr rfl
    · intro _
      unfold setCol
      split
      · next hin =>
        rw [lookup_isSome_iff] at hin ⊢
        rcases List.mem_map.mp hin with ⟨q, hq, rfl⟩
        refine List.mem_map.mpr ⟨(if q.1 = q.1 then (q.1, v) else q), List.mem_map.mpr ⟨q, hq, rfl⟩, ?_⟩
        simp
      · rw [lookup_isSome_iff]
        simp
  · rw [lookup_setCol_ne h]
    simp [h]

/-!
Claim theorems.
-/

/-- C4: for every record the engineered features satisfy
`fcd = (fck/1.4)/10`, `nu = (N_max·1.4)/(Ac·fcd)`,
`mu_x = (Mx_max·1.4·100)/(Ac·height·fcd)`,
`mu_y = (My_max·1.4·100)/(Ac·width·fcd)`, with `N_max`/`Mx_max`/`My_max`
the elementwise maxima of the absolute top and base values; Scenario A
yields `Ac = 2850` and `nu`, `mu_x`, `mu_y` per these exact formulas. -/
theorem C4_engineered_feature_formulas (r : PillarRecord) :
    (create_engineered_features r).Ac = r.largura * r.Altura ∧
    (create_engineered_features r).nu
        = (max |r.N_top| |r.N_base| * 1.4)
            / ((r.largura * r.Altura) * ((r.fck / 1.4) / 10)) ∧
    (create_engineered_features r).mu_x
        = (max |r.Mx_top| |r.Mx_base| * 1.4 * 100)
            / ((r.largura * r.Altura) * r.Altura * ((r.fck / 1.4) / 10)) ∧
    (create_engineered_features r).mu_y
        = (max |r.My_top| |r.My_base| * 1.4 * 100)
            / ((r.largura * r.Altura) * r.largura * ((r.fck / 1.4) / 10)) ∧
    (create_engineered_features scenarioA).Ac = 2850 ∧
    (create_engineered_features scenarioA).nu
        = (392 * 1.4) / (2850 * ((50 / 1.4) / 10)) ∧
    (create_engineered_features scenarioA).mu_x
        = (205 * 1.4 * 100) / ((2850 * 95) * ((50 / 1.4) / 10)) ∧
    (create_engineered_features scenarioA).mu_y
        = (430 * 1.4 * 100) / ((2850 * 30) * ((50 / 1.4) / 10)) := by
  refine ⟨rfl, rfl, rfl, rfl, ?_, ?_, ?_, ?_⟩ <;>
    norm_num [create_engineered_features, scenarioA]

/-- C7: `mu_total` is exactly the square root of `mu_x² + mu_y²` for
every record, and every square-section record (equal, nonzero width and
height — the data-model invariant requires them positive) has
`lambda_x = lambda_y` and `aspect_ratio = 1`. -/
theorem C7_mu_total_square_section (r : PillarRecord) :
    (create_engineered_features r).mu_total
        = Real.sqrt (((create_engineered_features r).mu_x : ℝ) ^ 2
            + ((create_engineered_features r).mu_y : ℝ) ^ 2) ∧
    (r.largura = r.Altura → r.largura ≠ 0 →
      (create_engineered_features r).lambda_x = (create_engineered_features r).lambda_y ∧
      (create_engineered_features r).aspect_ratio = 1) := by
  refine ⟨rfl, fun hsq hz => ⟨?_, ?_⟩⟩
  · simp [create_engineered_features, hsq]
  · have hz' : r.Altura ≠ 0 := hsq ▸ hz
    simp [create_engineered_features, hsq, div_self hz']

/-- C9: the eccentricity divisions are total — `e_x`/`e_y` are the
guarded `np.where` value (quotient when `N_max ≠ 0`, else 0) — and the
moment-gradient ratios always use the `+1e-6`-shifted denominator with no
other guard. -/
theorem C9_guard_semantics (r : PillarRecord) :
    (create_engineered_features r).e_x
        = (if max |r.N_top| |r.N_base| ≠ 0
            then max |r.Mx_top| |r.Mx_base| / max |r.N_top| |r.N_base| else 0) ∧
    (create_engineered_features r).e_y
        = (if max |r.N_top| |r.N_base| ≠ 0
            then max |r.My_top| |r.My_base| / max |r.N_top| |r.N_base| else 0) ∧
    (create_engineered_features r).ratio_M_x = r.Mx_top / (r.Mx_base + 1e-6) ∧
    (create_engineered_features r).ratio_M_y = r.My_top / (r.My_base + 1e-6) :=
  ⟨rfl, rfl, rfl, rfl⟩

/-- C1: when the classifier labels a record 0, `predict_single` returns
status Infeasible with zero predicted rho and steel area and its result
does not depend on the regressor (it is never invoked), and the batch row
carries `is_feasible = 0` with both predictions masked to zero; when the
label is 1, the predicted steel area equals predicted rho times
`Ac = width·height` in both modes; `predict_batch` is the row map. -/
theorem C1_two_stage_gating (clf : Classifier) (reg : Regressor) (r : PillarRecord) :
    (clf.predict (featureVector (create_engineered_features r)) = 0 →
      (predict_single clf reg r).status = "Infeasible" ∧
      (predict_single clf reg r).rho_predicted = 0 ∧
      (predict_single clf reg r).As_predicted = 0 ∧
      (∀ reg' : Regressor, predict_single clf reg' r = predict_single clf reg r) ∧
      (batchRow clf reg r).is_feasible = 0 ∧
      (batchRow clf reg r).rho_predicted = 0 ∧
      (batchRow clf reg r).As_predicted = 0) ∧
    (clf.predict (featureVector (create_engineered_features r)) = 1 →
      (predict_single clf reg r).As_predicted
        = (predict_single clf reg r).rho_predicted * (r.largura * r.Altura) ∧
      (batchRow clf reg r).As_predicted
        = (batchRow clf reg r).rho_predicted * (r.largura * r.Altura)) ∧
    (∀ rs : List PillarRecord, predict_batch clf reg rs = rs.map (batchRow clf reg)) := by
  refine ⟨?_, ?_, fun rs => rfl⟩
  · intro h0
    simp [predict_single, batchRow, h0]
  · intro h1
    constructor
    · simp [predict_single, h1, creEng_Ac]
    · simp [batchRow, h1, creEng_Ac]

/-- Witness for C1 at concrete models and Scenario A's record. -/
theorem C1_two_stage_gating_witness :
    ((predict_single (constClassifier 0 (1/2)) (constRegressor 3) scenarioA).rho_predicted = 0 ∧
      (predict_single (constClassifier 0 (1/2)) (constRegressor 3) scenarioA).As_predicted = 0) ∧
    (predict_single (constClassifier 1 (1/2)) (constRegressor 3) scenarioA).As_predicted
      = (predict_single (constClassifier 1 (1/2)) (constRegressor 3) scenarioA).rho_predicted
          * (scenarioA.largura * scenarioA.Altura) :=
  ⟨⟨((C1_two_stage_gating (constClassifier 0 (1/2)) (constRegressor 3) scenarioA).1 rfl).2.1,
    ((C1_two_stage_gating (constClassifier 0 (1/2)) (constRegressor 3) scenarioA).1 rfl).2.2.1⟩,
   ((C1_two_stage_gating (constClassifier 1 (1/2)) (constRegressor 3) scenarioA).2.1 rfl).1⟩

/-- C2: for every record, every position of every batch containing it,
and every classifier whose labels are binary (the Model contract),
the batch row and the single-record result agree exactly on feasibility,
probability, predicted rho and predicted steel area. -/
theorem C2_single_batch_agree (clf : Classifier) (reg : Regressor)
    (hbin : ∀ x, clf.predict x = 0 ∨ clf.predict x = 1)
    (r : PillarRecord) (l : List PillarRecord) (i : ℕ) (hil : l[i]? = some r) :
    (predict_batch clf reg l)[i]? = some (batchRow clf reg r) ∧
    ((batchRow clf reg r).is_feasible = 1 ↔ (predict_single clf reg r).status = "Feasible") ∧
    (batchRow clf reg r).prob_feasible = (predict_single clf reg r).feasibility_prob ∧
    (batchRow clf reg r).rho_predicted = (predict_single clf reg r).rho_predicted ∧
    (batchRow clf reg r).As_predicted = (predict_single clf reg r).As_predicted := by
  refine ⟨?_, ?_⟩
  · unfold predict_batch
    rw [List.getElem?_map, hil]
    rfl
  · rcases hbin (featureVector (create_engineered_features r)) with h | h
    · simp [predict_single, batchRow, h]
    · simp [predict_single, batchRow, h]

/-- Witness for C2 at a concrete binary classifier and the singleton
batch of Scenario A's record. -/
theorem C2_single_batch_agree_witness :
    (predict_batch (constClassifier 1 (3/4)) (constRegressor 2) [scenarioA])[0]?
        = some (batchRow (constClassifier 1 (3/4)) (constRegressor 2) scenarioA) ∧
    ((batchRow (constClassifier 1 (3/4)) (constRegressor 2) scenarioA).is_feasible = 1 ↔
      (predict_single (constClassifier 1 (3/4)) (constRegressor 2) scenarioA).status = "Feasible") ∧
    (batchRow (constClassifier 1 (3/4)) (constRegressor 2) scenarioA).prob_feasible
      = (predict_single (constClassifier 1 (3/4)) (constRegressor 2) scenarioA).feasibility_prob ∧
    (batchRow (constClassifier 1 (3/4)) (constRegressor 2) scenarioA).rho_predicted
      = (predict_single (constClassifier 1 (3/4)) (constRegressor 2) scenarioA).rho_predicted ∧
    (batchRow (constClassifier 1 (3/4)) (constRegressor 2) scenarioA).As_predicted
      = (predict_single (constClassifier 1 (3/4)) (constRegressor 2) scenarioA).As_predicted :=
  C2_single_batch_agree (constClassifier 1 (3/4)) (constRegressor 2)
    (fun _ => Or.inr rfl) scenarioA [scenarioA] 0 rfl

/-- C5: the optimizer's grid is exactly
`min_width, min_width+step, …` up to `max_width` inclusive, of size
`floor((max_width − min_width)/step) + 1`; Scenario C's constraints give
exactly the seven widths 20…50; and a candidate whose height is not among
the fixed parameters gets `height = width` (square section). -/
theorem C5_candidate_grid (c : Constraints)
    (hstep : 0 < c.step) (hle : c.min_largura ≤ c.max_largura) :
    optimizerLarguras c
        = (List.range (((c.max_largura - c.min_largura) / c.step).toNat + 1)).map
            (fun (i : ℕ) => c.min_largura + (i : ℤ) * c.step) ∧
    (optimizerLarguras c).length
        = ((c.max_largura - c.min_largura) / c.step).toNat + 1 ∧
    (∀ b ∈ optimizerLarguras c, c.min_largura ≤ b ∧ b ≤ c.max_largura) ∧
    optimizerLarguras ⟨20, 50, 5⟩ = [20, 25, 30, 35, 40, 45, 50] ∧
    (∀ (fp : FixedParams) (ld : Loads) (b : ℤ),
      fp.Altura = none → (mkCandidate fp ld b).Altura = (b : ℚ)) := by
  have hs0 : c.step ≠ 0 := ne_of_gt hstep
  have hnum : c.max_largura + 1 - c.min_largura + c.step - 1
      = (c.max_largura - c.min_largura) + 1 * c.step := by ring
  have hdiv : (c.max_largura + 1 - c.min_largura + c.step - 1) / c.step
      = (c.max_largura - c.min_largura) / c.step + 1 := by
    rw [hnum, Int.add_mul_ediv_right _ 1 hs0]
  have hq0 : 0 ≤ (c.max_largura - c.min_largura) / c.step :=
    Int.ediv_nonneg (by omega) hstep.le
  have htn : ((c.max_largura - c.min_largura) / c.step + 1).toNat
      = ((c.max_largura - c.min_largura) / c.step).toNat + 1 :=
    Int.toNat_add hq0 (by norm_num)
  have hgrid : optimizerLarguras c
      = (List.range (((c.max_largura - c.min_largura) / c.step).toNat + 1)).map
          (fun (i : ℕ) => c.min_largura + (i : ℤ) * c.step) := by
    unfold optimizerLarguras pyRange
    rw [if_pos hstep, hdiv, htn]
  refine ⟨hgrid, ?_, ?_, by decide, ?_⟩
  · rw [hgrid, List.length_map, List.length_range]
  · intro b hb
    rw [hgrid] at hb
    rcases List.mem_map.mp hb with ⟨i, hi, rfl⟩
    rw [List.mem_range] at hi
    have hi' : (i : ℤ) ≤ (c.max_largura - c.min_largura) / c.step := by
      have : (i : ℤ) ≤ (((c.max_largura - c.min_largura) / c.step).toNat : ℤ) := by
        exact_mod_cast Nat.lt_succ_iff.mp hi
      rwa [Int.toNat_of_nonneg hq0] at this
    constructor
    · have : 0 ≤ (i : ℤ) * c.step := mul_nonneg (Int.ofNat_nonneg i) hstep.le
      linarith
    · have h1 : (i : ℤ) * c.step ≤ ((c.max_largura - c.min_largura) / c.step) * c.step :=
        mul_le_mul_of_nonneg_right hi' hstep.le
      have h2 : ((c.max_largura - c.min_largura) / c.step) * c.step
          ≤ c.max_largura - c.min_largura := Int.ediv_mul_le _ hs0
      linarith
  · intro fp ld b hfp
    simp [mkCandidate, hfp]

/-- Witness for C5 at Scenario C's constraints. -/
theorem C5_candidate_grid_witness :
    (optimizerLarguras ⟨20, 50, 5⟩).length = (((50 : ℤ) - 20) / 5).toNat + 1 ∧
    (mkCandidate fpConc ldConc 30).Altura = ((30 : ℤ) : ℚ) :=
  ⟨(C5_candidate_grid ⟨20, 50, 5⟩ (by decide) (by decide)).2.1,
   (C5_candidate_grid ⟨20, 50, 5⟩ (by decide) (by decide)).2.2.2.2 fpConc ldConc 30 rfl⟩

/-- Every grid width is non-negative when the lower constraint is. -/
lemma optimizerLarguras_nonneg {c : Constraints}
    (hmin : 0 ≤ c.min_largura) (hstep : 0 < c.step) :
    ∀ b ∈ optimizerLarguras c, 0 ≤ b := by
  intro b hb
  unfold optimizerLarguras pyRange at hb
  rw [if_pos hstep] at hb
  rcases List.mem_map.mp hb with ⟨i, _, rfl⟩
  have : 0 ≤ (i : ℤ) * c.step := mul_nonneg (Int.ofNat_nonneg i) hstep.le
  linarith

/-- C3 as stated is false: a regressor emitting a negative steel ratio —
allowed by the Model contract, which only expects non-negativity — yields
an unpenalized candidate whose steel cost is negative.  The single
candidate of this concrete run is feasible with probability 1 yet has
`custo_aco = -78.5 < 0`. -/
theorem C3_counterexample :
    ((find_optimal_width (constClassifier 1 1) (constRegressor (-1)) fpConc ldConc csConc
        costsConc).map
        (fun row => (row.is_feasible, row.prob_feasible, row.custo_aco, row.custo_total)))
      = [((1 : ℤ), (1 : ℚ), (-785/10 : ℚ), (((1/100 : ℚ) + (-785/10 : ℚ) : ℚ) : WithTop ℚ))] ∧
    ¬ (0 ≤ (-785/10 : ℚ)) := by
  constructor
  · norm_num [find_optimal_width, candidateRows, optimizerLarguras, pyRange, mkCandidate,
      batchRow, create_engineered_features, featureVector, constClassifier, constRegressor,
      csConc, fpConc, ldConc, costsConc, List.insertionSort, List.orderedInsert]
  · norm_num

/-- C3 amended: every output candidate that is infeasible or has
probability below 0.5 has total cost exactly `+∞`; every other candidate
has `total = concrete + steel` with the stated cost formulas, and — when
unit prices, clear height, the width box and the regressor's outputs are
non-negative — both component costs are non-negative (they are finite
rationals by construction). -/
theorem C3_amended (clf : Classifier) (reg : Regressor) (fp : FixedParams)
    (ld : Loads) (c : Constraints) (costs : Costs)
    (hreg : ∀ x, 0 ≤ reg.predict x)
    (haco : 0 ≤ costs.aco_kg) (hcon : 0 ≤ costs.concreto_m3)
    (hpe : 0 ≤ fp.PeDireito) (hmin : 0 ≤ c.min_largura) (hstep : 0 < c.step)
    (halt : ∀ a, fp.Altura = some a → 0 ≤ a) :
    ∀ row ∈ find_optimal_width clf reg fp ld c costs,
      ((row.is_feasible = 0 ∨ row.prob_feasible < 0.5) → row.custo_total = ⊤) ∧
      (¬(row.is_feasible = 0 ∨ row.prob_feasible < 0.5) →
        row.custo_total = ((row.custo_concreto + row.custo_aco : ℚ) : WithTop ℚ) ∧
        0 ≤ row.custo_concreto ∧ 0 ≤ row.custo_aco) ∧
      row.custo_concreto
        = (row.largura / 100) * (row.Altura / 100) * (fp.PeDireito / 100)
            * costs.concreto_m3 ∧
      row.custo_aco = row.As_predicted * (fp.PeDireito / 100) * 0.785 * costs.aco_kg := by
  intro row hrow
  unfold find_optimal_width at hrow
  have hrow' : row ∈ candidateRows clf reg fp ld c costs :=
    (List.perm_insertionSort _ _).mem_iff.mp hrow
  unfold candidateRows at hrow'
  rcases List.mem_map.mp hrow' with ⟨b, hb, rfl⟩
  have hb0 : (0 : ℤ) ≤ b := optimizerLarguras_nonneg hmin hstep b hb
  have hbq : (0 : ℚ) ≤ (b : ℚ) := by exact_mod_cast hb0
  have halt' : (0 : ℚ) ≤ (mkCandidate fp ld b).Altura := by
    cases hA : fp.Altura with
    | none => simpa [mkCandidate, hA] using hbq
    | some a => simpa [mkCandidate, hA] using halt a hA
  have hAs : 0 ≤ (batchRow clf reg (mkCandidate fp ld b)).As_predicted := by
    by_cases hf :
        clf.predict (featureVector (create_engineered_features (mkCandidate fp ld b))) = 1
    · have hAc : (0 : ℚ) ≤ (create_engineered_features (mkCandidate fp ld b)).Ac := by
        rw [creEng_Ac]
        exact mul_nonneg (by simpa [mkCandidate] using hbq) halt'
      simp only [batchRow, hf, if_pos]
      exact mul_nonneg (hreg _) hAc
    · simp [batchRow, hf]
  refine ⟨?_, ?_, ?_, ?_⟩
  · intro hmask
    dsimp only at hmask ⊢
    rw [if_pos hmask]
  · intro hmask
    dsimp only at hmask ⊢
    rw [if_neg hmask]
    refine ⟨rfl, ?_, ?_⟩
    · exact mul_nonneg (mul_nonneg (mul_nonneg (div_nonneg hbq (by norm_num))
        (div_nonneg halt' (by norm_num))) (div_nonneg hpe (by norm_num))) hcon
    · exact mul_nonneg (mul_nonneg (mul_nonneg hAs
        (div_nonneg hpe (by norm_num))) (by norm_num)) haco
  · rfl
  · rfl

/-- Witness for the amended C3: the concrete one-candidate run with an
always-feasible classifier and the zero regressor. -/
theorem C3_amended_witness :
    ((rowConc.is_feasible = 0 ∨ rowConc.prob_feasible < 0.5) → rowConc.custo_total = ⊤) ∧
    (¬(rowConc.is_feasible = 0 ∨ rowConc.prob_feasible < 0.5) →
      rowConc.custo_total = ((rowConc.custo_concreto + rowConc.custo_aco : ℚ) : WithTop ℚ) ∧
      0 ≤ rowConc.custo_concreto ∧ 0 ≤ rowConc.custo_aco) ∧
    rowConc.custo_concreto
      = (rowConc.largura / 100) * (rowConc.Altura / 100) * (fpConc.PeDireito / 100)
          * costsConc.concreto_m3 ∧
    rowConc.custo_aco
      = rowConc.As_predicted * (fpConc.PeDireito / 100) * 0.785 * costsConc.aco_kg := by
  have hlist : find_optimal_width (constClassifier 1 1) (constRegressor 0) fpConc ldConc
      csConc costsConc = [rowConc] := by
    norm_num [find_optimal_width, candidateRows, optimizerLarguras, pyRange, mkCandidate,
      batchRow, create_engineered_features, featureVector, constClassifier, constRegressor,
      csConc, fpConc, ldConc, costsConc, rowConc, List.insertionSort, List.orderedInsert]
  exact C3_amended (constClassifier 1 1) (constRegressor 0) fpConc ldConc csConc costsConc
    (fun _ => le_refl 0) (by norm_num [costsConc]) (by norm_num [costsConc])
    (by norm_num [fpConc]) (by decide) (by decide)
    (fun a ha => by simp [fpConc] at ha)
    rowConc (by rw [hlist]; exact List.mem_singleton_self rowConc)

/-- Columns not written by the frame-level transform keep their exact
values: `create_engineered_features` works on a copy and only assigns the
engineered names. -/
lemma createEng_preserves {df out : Frame}
    (hout : create_engineered_features_df df = .ok out)
    (c : String) (hc : c ∉ engineeredColNames) :
    out.cols.lookup c = df.cols.lookup c := by
  have hne : ∀ c' ∈ engineeredColNames, c ≠ c' := fun c' hc' hcc => hc (hcc ▸ hc')
  unfold create_engineered_features_df at hout
  cases h1 : getCol df "largura" with
  | error e => rw [h1] at hout; simp [Bind.bind, Except.bind] at hout
  | ok largura =>
  rw [h1] at hout
  simp only [Bind.bind, Except.bind] at hout
  cases h2 : getCol df "Altura" with
  | error e => rw [h2] at hout; simp [Bind.bind, Except.bind] at hout
  | ok altura =>
  rw [h2] at hout
  simp only [Bind.bind, Except.bind] at hout
  cases h3 : getCol df "PeDireito" with
  | error e => rw [h3] at hout; simp [Bind.bind, Except.bind] at hout
  | ok pe_direito =>
  rw [h3] at hout
  simp only [Bind.bind, Except.bind] at hout
  cases h4 : getCol df "fck" with
  | error e => rw [h4] at hout; simp [Bind.bind, Except.bind] at hout
  | ok fck =>
  rw [h4] at hout
  simp only [Bind.bind, Except.bind] at hout
  cases h5 : getCol df "N_top" with
  | error e => rw [h5] at hout; simp [Bind.bind, Except.bind] at hout
  | ok N_top =>
  rw [h5] at hout
  simp only [Bind.bind, Except.bind] at hout
  cases h6 : getCol df "N_base" with
  | error e => rw [h6] at hout; simp [Bind.bind, Except.bind] at hout
  | ok N_base =>
  rw [h6] at hout
  simp only [Bind.bind, Except.bind] at hout
  cases h7 : getCol df "Mx_top" with
  | error e => rw [h7] at hout; simp [Bind.bind, Except.bind] at hout
  | ok Mx_top =>
  rw [h7] at hout
  simp only [Bind.bind, Except.bind] at hout
  cases h8 : getCol df "Mx_base" with
  | error e => rw [h8] at hout; simp [Bind.bind, Except.bind] at hout
  | ok Mx_base =>
  rw [h8] at hout
  simp only [Bind.bind, Except.bind] at hout
  cases h9 : getCol df "My_top" with
  | error e => rw [h9] at hout; simp [Bind.bind, Except.bind] at hout
  | ok My_top =>
  rw [h9] at hout
  simp only [Bind.bind, Except.bind] at hout
  cases h10 : getCol df "My_base" with
  | error e => rw [h10] at hout; simp [Bind.bind, Except.bind] at hout
  | ok My_base =>
  rw [h10] at hout
  simp only [Bind.bind, Except.bind] at hout
  simp only [Pure.pure, Except.pure, Except.ok.injEq] at hout
  subst hout
  rw [lookup_setCol_ne (hne "theta_moment" (by decide))]
  rw [lookup_setCol_ne (hne "aspect_ratio" (by decide))]
  rw [lookup_setCol_ne (hne "index_2nd_order_y" (by decide))]
  rw [lookup_setCol_ne (hne "index_2nd_order_x" (by decide))]
  rw [lookup_setCol_ne (hne "ratio_M_y" (by decide))]
  rw [lookup_setCol_ne (hne "ratio_M_x" (by decide))]
  rw [lookup_setCol_ne (hne "e_y" (by decide))]
  rw [lookup_setCol_ne (hne "e_x" (by decide))]
  rw [lookup_setCol_ne (hne "mu_total" (by decide))]
  rw [lookup_setCol_ne (hne "lambda_y" (by decide))]
  rw [lookup_setCol_ne (hne "lambda_x" (by decide))]
  rw [lookup_setCol_ne (hne "mu_y" (by decide))]
  rw [lookup_setCol_ne (hne "mu_x" (by decide))]
  rw [lookup_setCol_ne (hne "nu" (by decide))]
  rw [lookup_setCol_ne (hne "Ac" (by decide))]
  rw [lookup_setCol_ne (hne "dMy" (by decide))]
  rw [lookup_setCol_ne (hne "dMx" (by decide))]
  rw [lookup_setCol_ne (hne "dN" (by decide))]
  rw [lookup_setCol_ne (hne "My_med" (by decide))]
  rw [lookup_setCol_ne (hne "Mx_med" (by decide))]
  rw [lookup_setCol_ne (hne "N_med" (by decide))]

/-- A successful batch prediction needs every required raw column to be
present in at least one row. -/
lemma predict_batch_df_ok_present {cp : List Cell → ℤ} {pp rp : List Cell → ℚ}
    {rows : List PillarDict}
    (h : isOkE (predict_batch_df cp pp rp rows) = true) :
    ∀ col ∈ requiredBatchCols, col ∈ colUnion rows := by
  unfold predict_batch_df at h
  obtain ⟨df_eng, hEng, h⟩ := isOkE_bind h
  obtain ⟨X, hX, h⟩ := isOkE_bind h
  have hEngOk : isOkE (create_engineered_features_df (mkFrame rows)) = true := by
    rw [hEng]
    rfl
  unfold create_engineered_features_df at hEngOk
  obtain ⟨largura, hg1, hEngOk⟩ := isOkE_bind hEngOk
  obtain ⟨altura, hg2, hEngOk⟩ := isOkE_bind hEngOk
  obtain ⟨pe_direito, hg3, hEngOk⟩ := isOkE_bind hEngOk
  obtain ⟨fck, hg4, hEngOk⟩ := isOkE_bind hEngOk
  obtain ⟨nt, hg5, hEngOk⟩ := isOkE_bind hEngOk
  obtain ⟨nb, hg6, hEngOk⟩ := isOkE_bind hEngOk
  obtain ⟨mxt, hg7, hEngOk⟩ := isOkE_bind hEngOk
  obtain ⟨mxb, hg8, hEngOk⟩ := isOkE_bind hEngOk
  obtain ⟨myt, hg9, hEngOk⟩ := isOkE_bind hEngOk
  obtain ⟨myb, hg10, hEngOk⟩ := isOkE_bind hEngOk
  have hCobEng : (df_eng.cols.lookup "Cobrimento").isSome := by
    unfold selectCols at hX
    split at hX
    · next hall =>
      have := List.all_eq_true.mp hall "Cobrimento" (by decide)
      simpa using this
    · exact absurd hX (by simp)
  have hCob : ((mkFrame rows).cols.lookup "Cobrimento").isSome := by
    rwa [createEng_preserves hEng "Cobrimento" (by decide)] at hCobEng
  intro col hcol
  rw [← mkFrame_lookup_isSome]
  simp only [requiredBatchCols, List.mem_cons, List.not_mem_nil, or_false] at hcol
  rcases hcol with rfl | rfl | rfl | rfl | rfl | rfl | rfl | rfl | rfl | rfl | rfl
  · exact getCol_ok_isSome hg1
  · exact getCol_ok_isSome hg2
  · exact getCol_ok_isSome hg3
  · exact getCol_ok_isSome hg4
  · exact getCol_ok_isSome hg5
  · exact getCol_ok_isSome hg6
  · exact getCol_ok_isSome hg7
  · exact getCol_ok_isSome hg8
  · exact getCol_ok_isSome hg9
  · exact getCol_ok_isSome hg10
  · exact hCob

/-- C8 as stated is false in its second half: a required field missing
from only SOME rows does not abort the batch.  `pd.DataFrame` fills the
hole with NaN, the engineered cells become NaN, and the NaN-tolerant
models still predict — the concrete two-row batch below, whose first row
lacks `N_top`, succeeds and returns results for both rows. -/
theorem C8_counterexample :
    isOkE (predict_batch_df (fun _ => 1) (fun _ => (1 : ℚ)) (fun _ => (0 : ℚ))
        [dictMissingNtop, dictFull]) = true ∧
    dictMissingNtop.lookup "N_top" = none ∧
    "N_top" ∈ requiredBatchCols := by
  refine ⟨by decide, by decide, by decide⟩

/-- C8 amended: `predict_batch` fails (with the error the spec's taxonomy
calls `ValidationError`) on an empty input list, and whenever a required
raw field is absent from every row of the batch; a field missing from
only some rows is NaN-filled and does not abort the call. -/
theorem C8_amended (cp : List Cell → ℤ) (pp rp : List Cell → ℚ) :
    isOkE (predict_batch_df cp pp rp []) = false ∧
    ∀ (rows : List PillarDict) (col : String), col ∈ requiredBatchCols →
      (∀ r ∈ rows, r.lookup col = none) →
      isOkE (predict_batch_df cp pp rp rows) = false := by
  constructor
  · rfl
  · intro rows col hcol habs
    by_contra hok
    rw [Bool.not_eq_false] at hok
    have hp := predict_batch_df_ok_present hok col hcol
    rw [mem_colUnion] at hp
    obtain ⟨r, hr, hkey⟩ := hp
    have hsome : (r.lookup col).isSome := lookup_isSome_iff.mpr hkey
    rw [habs r hr] at hsome
    simp at hsome

/-- Witness for the amended C8: the empty batch, and a batch whose single
row lacks `largura` entirely. -/
theorem C8_amended_witness :
    isOkE (predict_batch_df (fun _ => 1) (fun _ => (1 : ℚ)) (fun _ => (0 : ℚ)) []) = false ∧
    isOkE (predict_batch_df (fun _ => 1) (fun _ => (1 : ℚ)) (fun _ => (0 : ℚ))
        [[("fck", 1)]]) = false :=
  ⟨(C8_amended (fun _ => 1) (fun _ => (1 : ℚ)) (fun _ => (0 : ℚ))).1,
   (C8_amended (fun _ => 1) (fun _ => (1 : ℚ)) (fun _ => (0 : ℚ))).2
      [[("fck", 1)]] "largura" (by decide) (by decide)⟩

/-- C10 as stated is false: an input frame that already carries a column
with an engineered name (here `Ac = 42`) does NOT reappear unchanged —
the transform overwrites it with `width·height`. -/
theorem C10_counterexample :
    (mkFrame [dictWithAc]).cols.lookup "Ac" = some [some ((42 : ℚ) : ℝ)] ∧
    colOfResult (create_engineered_features_df (mkFrame [dictWithAc])) "Ac"
      = some [some (((10 : ℚ) : ℝ) * ((10 : ℚ) : ℝ))] ∧
    colOfResult (create_engineered_features_df (mkFrame [dictWithAc])) "Ac"
      ≠ (mkFrame [dictWithAc]).cols.lookup "Ac" := by
  refine ⟨rfl, rfl, ?_⟩
  rw [show colOfResult (create_engineered_features_df (mkFrame [dictWithAc])) "Ac"
      = some [some (((10 : ℚ) : ℝ) * ((10 : ℚ) : ℝ))] from rfl]
  rw [show (mkFrame [dictWithAc]).cols.lookup "Ac" = some [some ((42 : ℚ) : ℝ)] from rfl]
  simp only [ne_eq, Option.some.injEq, List.cons.injEq, and_true]
  intro hcontra
  rw [show ((10 : ℚ) : ℝ) = (10 : ℝ) by norm_num,
    show ((42 : ℚ) : ℝ) = (42 : ℝ) by norm_num] at hcontra
  norm_num at hcontra

/-- C10 amended: the transform never mutates its caller's frame (it is a
pure copy in this model, mirroring the source's `df.copy()`), and every
original column whose name is NOT one of the 21 engineered names — in
particular every raw record column, none of which is engineered — keeps
its exact values in the returned frame; hence `predict_single` and
`predict_batch` leave caller records unmodified. -/
theorem C10_amended (df : Frame) (c : String) (hc : c ∉ engineeredColNames)
    (out : Frame) (hout : create_engineered_features_df df = .ok out) :
    out.cols.lookup c = df.cols.lookup c ∧
    ("As" ∉ engineeredColNames ∧ ∀ c' ∈ requiredBatchCols, c' ∉ engineeredColNames) :=
  ⟨createEng_preserves hout c hc, by decide, by decide⟩

/-- Witness for the amended C10 at the fully-populated one-row frame and
the raw column `fck`. -/
theorem C10_amended_witness :
    engFullFrame.cols.lookup "fck" = (mkFrame [dictFull]).cols.lookup "fck" ∧
    ("As" ∉ engineeredColNames ∧ ∀ c' ∈ requiredBatchCols, c' ∉ engineeredColNames) :=
  C10_amended (mkFrame [dictFull]) "fck" (by decide) engFullFrame rfl

/-- Witness for C7 at a concrete square-section record (width = height =
10). -/
theorem C7_mu_total_square_section_witness :
    (create_engineered_features (mkCandidate fpConc ldConc 10)).mu_total
        = Real.sqrt (((create_engineered_features (mkCandidate fpConc ldConc 10)).mu_x : ℝ) ^ 2
            + ((create_engineered_features (mkCandidate fpConc ldConc 10)).mu_y : ℝ) ^ 2) ∧
    ((create_engineered_features (mkCandidate fpConc ldConc 10)).lambda_x
        = (create_engineered_features (mkCandidate fpConc ldConc 10)).lambda_y ∧
      (create_engineered_features (mkCandidate fpConc ldConc 10)).aspect_ratio = 1) :=
  ⟨(C7_mu_total_square_section (mkCandidate fpConc ldConc 10)).1,
   (C7_mu_total_square_section (mkCandidate fpConc ldConc 10)).2 rfl
      (by norm_num [mkCandidate, fpConc])⟩
